import Mathlib

/-!
# Open3D: `RenderOption` and `Widget`

A shallow embedding of `src/Visualization/Visualizer/RenderOption.h` (namespace `three`)
and of the composition interface of `src/Open3D/GUI/Widget.h` (namespace `open3d::gui`).

* The record `RenderOption` embeds `double` members as exact rationals (`ℚ`); this is the
  idealisation used for the toggles, the frame conditions, the clamping and the JSON round trip.
* `Double` and `RenderOption.IEEE.ChangePointSize` embed the same point-size update in IEEE 754
  binary64 arithmetic (rounding to nearest, infinities, not-a-number); the properties that
  depend on rounding or on special values are settled there.
* `int` values are embedded as `Int`; the 32-bit range is an explicit predicate.
* The `static const double` members `POINT_SIZE_MAX`, `POINT_SIZE_MIN`, `POINT_SIZE_STEP`
  and `POINT_SIZE_DEFAULT` are only declared in the header, so every definition that reads
  them takes them as a parameter (`PointSizeConstants`).
-/

namespace three

/-- The class `Eigen::Vector3d`: three `double` coordinates. -/
structure Vector3d where
  x : ℚ
  y : ℚ
  z : ℚ
deriving DecidableEq, Repr

/-- The value of `Eigen::Vector3d::Ones()`. -/
def Vector3d.Ones : Vector3d := ⟨1, 1, 1⟩

/-- The value of `Eigen::Vector3d::Zero()`. -/
def Vector3d.Zero : Vector3d := ⟨0, 0, 0⟩

/-- A C array `T name[4]`, as used for the four lights. -/
structure Array4 (α : Type) where
  e0 : α
  e1 : α
  e2 : α
  e3 : α
deriving DecidableEq, Repr

/-- The enumeration `RenderOption::TextureInterpolationOption`. -/
inductive TextureInterpolationOption where
  | NEAREST
  | LINEAR
deriving DecidableEq, Repr

/-- The enumeration `RenderOption::PointColorOption`. -/
inductive PointColorOption where
  | DEFAULT
  | COLOR
  | X
  | Y
  | Z
  | NORMAL
deriving DecidableEq, Repr

/-- The enumeration `RenderOption::MeshShadeOption`. -/
inductive MeshShadeOption where
  | FLAT
  | SMOOTH
deriving DecidableEq, Repr

/-- The enumeration `RenderOption::MeshColorOption`. -/
inductive MeshColorOption where
  | DEFAULT
  | COLOR
  | X
  | Y
  | Z
  | NORMAL
deriving DecidableEq, Repr

/-- The enumeration `RenderOption::ImageStretchOption`. -/
inductive ImageStretchOption where
  | ORIGINAL_SIZE
  | STRETCH_KEEP_RATIO
  | STRETCH_WITH_WINDOW
deriving DecidableEq, Repr

open ImageStretchOption ( STRETCH_KEEP_RATIO)

/-- The enumerator values of `TextureInterpolationOption`, as declared. -/
def TextureInterpolationOption.toInt : TextureInterpolationOption → Int
  | .NEAREST => 0
  | .LINEAR => 1

/-- The enumerator values of `PointColorOption`, as declared. -/
def PointColorOption.toInt : PointColorOption → Int
  | .DEFAULT => 0
  | .COLOR => 1
  | .X => 2
  | .Y => 3
  | .Z => 4
  | .NORMAL => 9

/-- The enumerator values of `MeshShadeOption`, as declared. -/
def MeshShadeOption.toInt : MeshShadeOption → Int
  | .FLAT => 0
  | .SMOOTH => 1

/-- The enumerator values of `MeshColorOption`, as declared. -/
def MeshColorOption.toInt : MeshColorOption → Int
  | .DEFAULT => 0
  | .COLOR => 1
  | .X => 2
  | .Y => 3
  | .Z => 4
  | .NORMAL => 9

/-- The enumerator values of `ImageStretchOption`, as declared. -/
def ImageStretchOption.toInt : ImageStretchOption → Int
  | .ORIGINAL_SIZE => 0
  | STRETCH_KEEP_RATIO => 1
  | .STRETCH_WITH_WINDOW => 2

/-- The four `static const double` members of `RenderOption`.  The header declares them
without a value, so they are parameters of the development. -/
structure PointSizeConstants where
  POINT_SIZE_MAX : ℚ
  POINT_SIZE_MIN : ℚ
  POINT_SIZE_STEP : ℚ
  POINT_SIZE_DEFAULT : ℚ
deriving DecidableEq, Repr

/-- The data members of the class `RenderOption`, in declaration order. -/
structure RenderOption where
  background_color_ : Vector3d
  interpolation_option_ : TextureInterpolationOption
  light_on_ : Bool
  light_position_relative_ : Array4 Vector3d
  light_color_ : Array4 Vector3d
  light_ambient_color_ : Vector3d
  light_diffuse_power_ : Array4 ℚ
  light_specular_power_ : Array4 ℚ
  light_specular_shininess_ : Array4 ℚ
  point_size_ : ℚ
  point_color_option_ : PointColorOption
  point_show_normal_ : Bool
  mesh_shade_option_ : MeshShadeOption
  mesh_color_option_ : MeshColorOption
  mesh_show_back_face_ : Bool
  mesh_show_wireframe_ : Bool
  default_mesh_color_ : Vector3d
  image_stretch_option_ : ImageStretchOption
  image_max_depth_ : Int
  show_coordinate_frame_ : Bool
deriving DecidableEq, Repr

namespace RenderOption

/-- The constructor `RenderOption()`: the default member initialisers followed by the
array assignments of the constructor body. -/
def new (K : PointSizeConstants) : RenderOption where
  background_color_ := Vector3d.Ones
  interpolation_option_ := TextureInterpolationOption.NEAREST
  light_on_ := true
  light_position_relative_ := ⟨⟨0, 0, 2⟩, ⟨0, 0, 2⟩, ⟨0, 0, -2⟩, ⟨0, 0, -2⟩⟩
  light_color_ := ⟨Vector3d.Ones, Vector3d.Ones, Vector3d.Ones, Vector3d.Ones⟩
  light_ambient_color_ := Vector3d.Zero
  light_diffuse_power_ := ⟨66 / 100, 66 / 100, 66 / 100, 66 / 100⟩
  light_specular_power_ := ⟨2 / 10, 2 / 10, 2 / 10, 2 / 10⟩
  light_specular_shininess_ := ⟨100, 100, 100, 100⟩
  point_size_ := K.POINT_SIZE_DEFAULT
  point_color_option_ := PointColorOption.DEFAULT
  point_show_normal_ := false
  mesh_shade_option_ := MeshShadeOption.FLAT
  mesh_color_option_ := MeshColorOption.COLOR
  mesh_show_back_face_ := false
  mesh_show_wireframe_ := false
  default_mesh_color_ := ⟨7 / 10, 7 / 10, 7 / 10⟩
  image_stretch_option_ := ImageStretchOption.ORIGINAL_SIZE
  image_max_depth_ := 3000
  show_coordinate_frame_ := false

/-- The function `std::min(a, b)`, which is `(b < a) ? b : a`. -/
def stdMin (a b : ℚ) : ℚ := if b < a then b else a

/-- The function `std::max(a, b)`, which is `(a < b) ? b : a`. -/
def stdMax (a b : ℚ) : ℚ := if a < b then b else a

/-- The method `RenderOption::ToggleLightOn`. -/
def ToggleLightOn (r : RenderOption) : RenderOption :=
  { r with light_on_ := !r.light_on_ }

/-- The method `RenderOption::ToggleInterpolationOption`. -/
def ToggleInterpolationOption (r : RenderOption) : RenderOption :=
  if r.interpolation_option_ = TextureInterpolationOption.NEAREST then
    { r with interpolation_option_ := TextureInterpolationOption.LINEAR }
  else
    { r with interpolation_option_ := TextureInterpolationOption.NEAREST }

/-- The method `RenderOption::ChangePointSize`. -/
def ChangePointSize (K : PointSizeConstants) (r : RenderOption) (change : ℚ) : RenderOption :=
  { r with
    point_size_ := stdMax
      (stdMin (r.point_size_ + change * K.POINT_SIZE_STEP) K.POINT_SIZE_MAX) K.POINT_SIZE_MIN }

/-- The method `RenderOption::TogglePointShowNormal`. -/
def TogglePointShowNormal (r : RenderOption) : RenderOption :=
  { r with point_show_normal_ := !r.point_show_normal_ }

/-- The method `RenderOption::ToggleShadingOption`. -/
def ToggleShadingOption (r : RenderOption) : RenderOption :=
  if r.mesh_shade_option_ = MeshShadeOption.FLAT then
    { r with mesh_shade_option_ := MeshShadeOption.SMOOTH }
  else
    { r with mesh_shade_option_ := MeshShadeOption.FLAT }

/-- The method `RenderOption::ToggleMeshShowBackFace`. -/
def ToggleMeshShowBackFace (r : RenderOption) : RenderOption :=
  { r with mesh_show_back_face_ := !r.mesh_show_back_face_ }

/-- The method `RenderOption::ToggleMeshShowWireframe`. -/
def ToggleMeshShowWireframe (r : RenderOption) : RenderOption :=
  { r with mesh_show_wireframe_ := !r.mesh_show_wireframe_ }

/-- The method `RenderOption::ToggleImageStretchOption`. -/
def ToggleImageStretchOption (r : RenderOption) : RenderOption :=
  if r.image_stretch_option_ = ImageStretchOption.ORIGINAL_SIZE then
    { r with image_stretch_option_ := STRETCH_KEEP_RATIO }
  else if r.image_stretch_option_ = STRETCH_KEEP_RATIO then
    { r with image_stretch_option_ := ImageStretchOption.STRETCH_WITH_WINDOW }
  else
    { r with image_stretch_option_ := ImageStretchOption.ORIGINAL_SIZE }

/-- The names of the seven toggle methods of `RenderOption`. -/
inductive Toggle where
  | LightOn
  | InterpolationOption
  | PointShowNormal
  | ShadingOption
  | MeshShowBackFace
  | MeshShowWireframe
  | ImageStretchOption
deriving DecidableEq, Repr

/-- Calling the toggle method named by `t` on `r`. -/
def Toggle.call : Toggle → RenderOption → RenderOption
  | .LightOn => ToggleLightOn
  | .InterpolationOption => ToggleInterpolationOption
  | .PointShowNormal => TogglePointShowNormal
  | .ShadingOption => ToggleShadingOption
  | .MeshShowBackFace => ToggleMeshShowBackFace
  | .MeshShowWireframe => ToggleMeshShowWireframe
  | .ImageStretchOption => ToggleImageStretchOption

end RenderOption

end three

namespace three

/-- An IEEE 754 binary64 value, the C++ type `double`: not-a-number, the two infinities, or a
finite value, given by the rational number it denotes.  The two zeros compare equal and are
not told apart. -/
inductive Double where
  | nan
  | ninf
  | fin (q : ℚ)
  | pinf
deriving DecidableEq, Repr

namespace Double

/-- The number of binary digits of `n`; `fuel` bounds the recursion and `n` itself suffices. -/
def bitLength : Nat → Nat → Nat
  | 0, _ => 0
  | fuel + 1, n => if n = 0 then 0 else bitLength fuel (n / 2) + 1

/-- The exponent `⌊log₂ (n / d)⌋` of a positive fraction. -/
def floorLog2 (n d : Nat) : Int :=
  let k : Int := (bitLength n n : Int) - (bitLength d d : Int)
  if 0 ≤ k then (if d * 2 ^ k.toNat ≤ n then k else k - 1)
  else (if d ≤ n * 2 ^ (-k).toNat then k else k - 1)

/-- The integer nearest to `n / d`, a tie going to the even one. -/
def roundHalfEven (n d : Nat) : Nat :=
  if 2 * (n % d) < d then n / d
  else if d < 2 * (n % d) then n / d + 1
  else if (n / d) % 2 = 0 then n / d
  else n / d + 1

/-- The binary64 value nearest to the positive fraction `n / d` (round to nearest, ties to
even): 53 significant bits, exponents from -1022 (below that the values are subnormal) to
1023 (above that the result is infinite). -/
def roundPos (n d : Nat) : Double :=
  let e : Int := max (floorLog2 n d) (-1022)
  let s : Int := 52 - e
  let m : Nat :=
    if 0 ≤ s then roundHalfEven (n * 2 ^ s.toNat) d else roundHalfEven n (d * 2 ^ (-s).toNat)
  if 1024 ≤ e ∨ (e = 1023 ∧ m = 2 ^ 53) then pinf
  else if 0 ≤ s then fin (mkRat m (2 ^ s.toNat))
  else fin ((m * 2 ^ (-s).toNat : Nat) : ℚ)

/-- The unary minus of `double`. -/
def neg : Double → Double
  | nan => nan
  | ninf => pinf
  | fin q => fin (-q)
  | pinf => ninf

/-- The binary64 value nearest to the rational `q`: the rounding every arithmetic operation
of `double` applies to its exact result. -/
def roundDouble (q : ℚ) : Double :=
  if q.num = 0 then fin 0
  else if 0 < q.num then roundPos q.num.natAbs q.den
  else neg (roundPos q.num.natAbs q.den)

/-- The operator `+` of `double`. -/
def add : Double → Double → Double
  | nan, _ => nan
  | _, nan => nan
  | pinf, ninf => nan
  | ninf, pinf => nan
  | pinf, _ => pinf
  | _, pinf => pinf
  | ninf, _ => ninf
  | _, ninf => ninf
  | fin a, fin b => roundDouble (a + b)

/-- The product of an infinity, positive when `positive`, with the finite value `a`. -/
def mulInf (positive : Bool) (a : ℚ) : Double :=
  if a = 0 then nan
  else if (0 < a) = positive then pinf
  else ninf

/-- The operator `*` of `double`. -/
def mul : Double → Double → Double
  | nan, _ => nan
  | _, nan => nan
  | fin a, fin b => roundDouble (a * b)
  | fin a, pinf => mulInf true a
  | pinf, fin a => mulInf true a
  | fin a, ninf => mulInf false a
  | ninf, fin a => mulInf false a
  | pinf, pinf => pinf
  | ninf, ninf => pinf
  | pinf, ninf => ninf
  | ninf, pinf => ninf

/-- The operator `<` of `double`: false as soon as an operand is not a number. -/
def lt : Double → Double → Bool
  | nan, _ => false
  | _, nan => false
  | fin a, fin b => decide (a < b)
  | ninf, ninf => false
  | ninf, _ => true
  | pinf, _ => false
  | fin _, pinf => true
  | fin _, ninf => false

/-- The operator `<=` of `double`: false as soon as an operand is not a number. -/
def le : Double → Double → Bool
  | nan, _ => false
  | _, nan => false
  | fin a, fin b => decide (a ≤ b)
  | ninf, _ => true
  | _, pinf => true
  | pinf, _ => false
  | fin _, ninf => false

end Double

namespace RenderOption

namespace IEEE

/-- The four `static const double` members of `RenderOption`, as binary64 values. -/
structure PointSizeConstants where
  POINT_SIZE_MAX : Double
  POINT_SIZE_MIN : Double
  POINT_SIZE_STEP : Double
  POINT_SIZE_DEFAULT : Double
deriving DecidableEq, Repr

/-- The function `std::min(a, b)` on `double`, which is `(b < a) ? b : a`. -/
def stdMin (a b : Double) : Double := if Double.lt b a then b else a

/-- The function `std::max(a, b)` on `double`, which is `(a < b) ? b : a`. -/
def stdMax (a b : Double) : Double := if Double.lt a b then b else a

/-- The method `RenderOption::ChangePointSize` in binary64 arithmetic: the value it assigns
to `point_size_`, from the value `point_size` the member holds before the call.  The product
and the sum are rounded one after the other. -/
def ChangePointSize (K : PointSizeConstants) (point_size change : Double) : Double :=
  stdMax (stdMin (point_size.add (change.mul K.POINT_SIZE_STEP)) K.POINT_SIZE_MAX)
    K.POINT_SIZE_MIN

end IEEE

end RenderOption

end three

namespace Json

/-- A JSON document tree, the data carried by the external type `Json::Value`. -/
inductive Value where
  | null
  | bool (b : Bool)
  | int (n : Int)
  | real (q : ℚ)
  | str (s : String)
  | arr (xs : List Value)
  | obj (members : List (String × Value))

/-- The predicate "fits a C `int`" (32 bits, two's complement). -/
def isInt32 (n : Int) : Bool := decide (-2147483648 ≤ n) && decide (n ≤ 2147483647)

/-- Reading a JSON value as a C `int`: only an integer that fits 32 bits converts. -/
def Value.asInt : Value → Option Int
  | .int n => if isInt32 n then some n else none
  | _ => none

/-- Reading a JSON value as a `double`: numbers convert, nothing else does. -/
def Value.asDouble : Value → Option ℚ
  | .real q => some q
  | .int n => some (n : ℚ)
  | _ => none

/-- Reading a JSON value as a `bool`. -/
def Value.asBool : Value → Option Bool
  | .bool b => some b
  | _ => none

end Json

namespace three

open ImageStretchOption ( STRETCH_KEEP_RATIO)

/-- Modelled from the spec: decoding of an enum-backed JSON field, missing from the sources
(the header only declares `ConvertFromJsonValue`).  The integer must be one of the declared
enumerator values; "an out-of-range enum value is a data-corruption condition and should fail
the conversion rather than silently clamp". -/
def TextureInterpolationOption.ofInt (n : Int) : Option TextureInterpolationOption :=
  if n = 0 then some .NEAREST
  else if n = 1 then some .LINEAR
  else none

/-- Modelled from the spec: decoding of an enum-backed JSON field (`PointColorOption`),
missing from the sources; an integer that is no declared enumerator value fails. -/
def PointColorOption.ofInt (n : Int) : Option PointColorOption :=
  if n = 0 then some .DEFAULT
  else if n = 1 then some .COLOR
  else if n = 2 then some .X
  else if n = 3 then some .Y
  else if n = 4 then some .Z
  else if n = 9 then some .NORMAL
  else none

/-- Modelled from the spec: decoding of an enum-backed JSON field (`MeshShadeOption`),
missing from the sources; an integer that is no declared enumerator value fails. -/
def MeshShadeOption.ofInt (n : Int) : Option MeshShadeOption :=
  if n = 0 then some .FLAT
  else if n = 1 then some .SMOOTH
  else none

/-- Modelled from the spec: decoding of an enum-backed JSON field (`MeshColorOption`),
missing from the sources; an integer that is no declared enumerator value fails. -/
def MeshColorOption.ofInt (n : Int) : Option MeshColorOption :=
  if n = 0 then some .DEFAULT
  else if n = 1 then some .COLOR
  else if n = 2 then some .X
  else if n = 3 then some .Y
  else if n = 4 then some .Z
  else if n = 9 then some .NORMAL
  else none

/-- Modelled from the spec: decoding of an enum-backed JSON field (`ImageStretchOption`),
missing from the sources; an integer that is no declared enumerator value fails. -/
def ImageStretchOption.ofInt (n : Int) : Option ImageStretchOption :=
  if n = 0 then some .ORIGINAL_SIZE
  else if n = 1 then some STRETCH_KEEP_RATIO
  else if n = 2 then some .STRETCH_WITH_WINDOW
  else none

/-- Modelled from the spec: the JSON form of a `Vector3d` field, missing from the sources:
an array of its three coordinates. -/
def Vector3d.toJson (v : Vector3d) : Json.Value :=
  .arr [.real v.x, .real v.y, .real v.z]

/-- Modelled from the spec: reading a `Vector3d` field back, missing from the sources:
exactly three numbers, anything else is malformed. -/
def Vector3d.fromJson : Json.Value → Option Vector3d
  | .arr [a, b, c] => do
    let x ← a.asDouble
    let y ← b.asDouble
    let z ← c.asDouble
    some ⟨x, y, z⟩
  | _ => none

/-- Modelled from the spec: the JSON form of a four-light array field, missing from the
sources: an array of the four elements in index order. -/
def Array4.toJson {α : Type} (enc : α → Json.Value) (a : Array4 α) : Json.Value :=
  .arr [enc a.e0, enc a.e1, enc a.e2, enc a.e3]

/-- Modelled from the spec: reading a four-light array field back, missing from the
sources: exactly four well-formed elements, anything else is malformed. -/
def Array4.fromJson {α : Type} (dec : Json.Value → Option α) : Json.Value → Option (Array4 α)
  | .arr [a, b, c, d] => do
    let e0 ← dec a
    let e1 ← dec b
    let e2 ← dec c
    let e3 ← dec d
    some ⟨e0, e1, e2, e3⟩
  | _ => none

/-- Modelled from the spec: reading one key of the JSON object, missing from the sources:
"`ConvertFromJsonValue` must tolerate missing keys by retaining constructed defaults"; a key
that is present must hold a well-formed value. -/
def readField {α : Type} (members : List (String × Json.Value)) (key : String)
    (dec : Json.Value → Option α) (current : α) : Option α :=
  match members.lookup key with
  | none => some current
  | some v => dec v

namespace RenderOption

/-- Modelled from the spec: the body of `RenderOption::ConvertToJsonValue`, missing from the
sources (the header only declares it): "a JSON object with one key per field".  The result is
`some value` when the C++ method returns `true` with `value` filled in. -/
def ConvertToJsonValue (r : RenderOption) : Option Json.Value :=
  some (.obj [
    ("background_color", r.background_color_.toJson),
    ("interpolation_option", .int r.interpolation_option_.toInt),
    ("light_on", .bool r.light_on_),
    ("light_position_relative", r.light_position_relative_.toJson Vector3d.toJson),
    ("light_color", r.light_color_.toJson Vector3d.toJson),
    ("light_ambient_color", r.light_ambient_color_.toJson),
    ("light_diffuse_power", r.light_diffuse_power_.toJson Json.Value.real),
    ("light_specular_power", r.light_specular_power_.toJson Json.Value.real),
    ("light_specular_shininess", r.light_specular_shininess_.toJson Json.Value.real),
    ("point_size", .real r.point_size_),
    ("point_color_option", .int r.point_color_option_.toInt),
    ("point_show_normal", .bool r.point_show_normal_),
    ("mesh_shade_option", .int r.mesh_shade_option_.toInt),
    ("mesh_color_option", .int r.mesh_color_option_.toInt),
    ("mesh_show_back_face", .bool r.mesh_show_back_face_),
    ("mesh_show_wireframe", .bool r.mesh_show_wireframe_),
    ("default_mesh_color", r.default_mesh_color_.toJson),
    ("image_stretch_option", .int r.image_stretch_option_.toInt),
    ("image_max_depth", .int r.image_max_depth_),
    ("show_coordinate_frame", .bool r.show_coordinate_frame_)])

/-- Modelled from the spec: one member assignment of `ConvertFromJsonValue`, missing from the
sources: the member read by `get` is replaced through `set` by the decoded value of `key`, or
kept when the key is absent; a malformed value fails. -/
def assignField {α : Type} (m : List (String × Json.Value)) (key : String)
    (dec : Json.Value → Option α) (get : RenderOption → α)
    (set : RenderOption → α → RenderOption) (r : RenderOption) : Option RenderOption :=
  (readField m key dec (get r)).map (set r)

/-- Modelled from the spec: the body of `RenderOption::ConvertFromJsonValue`, missing from
the sources (the header only declares it).  `self` is the instance the method is called on;
the result is `some` of the updated instance when the C++ method returns `true`, and `none`
when it returns `false`.  The members are assigned one after the other.  Absent keys keep the
value `self` already holds; a value that is not an object, a malformed member or an
out-of-range enum value fails the conversion. -/
def ConvertFromJsonValue (self : RenderOption) : Json.Value → Option RenderOption
  | .obj m =>
    (some self)
    |>.bind (assignField m "background_color" Vector3d.fromJson
      (fun r => r.background_color_) (fun r v => { r with background_color_ := v }))
    |>.bind (assignField m "interpolation_option" (fun v => v.asInt.bind TextureInterpolationOption.ofInt)
      (fun r => r.interpolation_option_) (fun r v => { r with interpolation_option_ := v }))
    |>.bind (assignField m "light_on" Json.Value.asBool
      (fun r => r.light_on_) (fun r v => { r with light_on_ := v }))
    |>.bind (assignField m "light_position_relative" (Array4.fromJson Vector3d.fromJson)
      (fun r => r.light_position_relative_) (fun r v => { r with light_position_relative_ := v }))
    |>.bind (assignField m "light_color" (Array4.fromJson Vector3d.fromJson)
      (fun r => r.light_color_) (fun r v => { r with light_color_ := v }))
    |>.bind (assignField m "light_ambient_color" Vector3d.fromJson
      (fun r => r.light_ambient_color_) (fun r v => { r with light_ambient_color_ := v }))
    |>.bind (assignField m "light_diffuse_power" (Array4.fromJson Json.Value.asDouble)
      (fun r => r.light_diffuse_power_) (fun r v => { r with light_diffuse_power_ := v }))
    |>.bind (assignField m "light_specular_power" (Array4.fromJson Json.Value.asDouble)
      (fun r => r.light_specular_power_) (fun r v => { r with light_specular_power_ := v }))
    |>.bind (assignField m "light_specular_shininess" (Array4.fromJson Json.Value.asDouble)
      (fun r => r.light_specular_shininess_) (fun r v => { r with light_specular_shininess_ := v }))
    |>.bind (assignField m "point_size" Json.Value.asDouble
      (fun r => r.point_size_) (fun r v => { r with point_size_ := v }))
    |>.bind (assignField m "point_color_option" (fun v => v.asInt.bind PointColorOption.ofInt)
      (fun r => r.point_color_option_) (fun r v => { r with point_color_option_ := v }))
    |>.bind (assignField m "point_show_normal" Json.Value.asBool
      (fun r => r.point_show_normal_) (fun r v => { r with point_show_normal_ := v }))
    |>.bind (assignField m "mesh_shade_option" (fun v => v.asInt.bind MeshShadeOption.ofInt)
      (fun r => r.mesh_shade_option_) (fun r v => { r with mesh_shade_option_ := v }))
    |>.bind (assignField m "mesh_color_option" (fun v => v.asInt.bind MeshColorOption.ofInt)
      (fun r => r.mesh_color_option_) (fun r v => { r with mesh_color_option_ := v }))
    |>.bind (assignField m "mesh_show_back_face" Json.Value.asBool
      (fun r => r.mesh_show_back_face_) (fun r v => { r with mesh_show_back_face_ := v }))
    |>.bind (assignField m "mesh_show_wireframe" Json.Value.asBool
      (fun r => r.mesh_show_wireframe_) (fun r v => { r with mesh_show_wireframe_ := v }))
    |>.bind (assignField m "default_mesh_color" Vector3d.fromJson
      (fun r => r.default_mesh_color_) (fun r v => { r with default_mesh_color_ := v }))
    |>.bind (assignField m "image_stretch_option" (fun v => v.asInt.bind ImageStretchOption.ofInt)
      (fun r => r.image_stretch_option_) (fun r v => { r with image_stretch_option_ := v }))
    |>.bind (assignField m "image_max_depth" Json.Value.asInt
      (fun r => r.image_max_depth_) (fun r v => { r with image_max_depth_ := v }))
    |>.bind (assignField m "show_coordinate_frame" Json.Value.asBool
      (fun r => r.show_coordinate_frame_) (fun r v => { r with show_coordinate_frame_ := v }))
  | _ => none

/-- The fields of `r` hold in-range values: the `int` member fits 32 bits (every enum member
of the embedding is a declared enumerator, and rationals have no non-finite values). -/
def InRange (r : RenderOption) : Prop := Json.isInt32 r.image_max_depth_ = true

instance (r : RenderOption) : Decidable (InRange r) := by
  unfold InRange; infer_instance

end RenderOption

end three

namespace open3d

namespace gui

/-- Modelled from the spec: the type `Rect` of `Gui.h`, missing from the sources: "a frame
rectangle (position + size in screen pixels)". -/
structure Rect where
  x : Int
  y : Int
  width : Int
  height : Int
deriving DecidableEq, Repr

/-- Modelled from the spec: the class `Color`, which `Widget.h` only forward-declares. -/
structure Color where
  r : ℚ
  g : ℚ
  b : ℚ
  a : ℚ
deriving DecidableEq, Repr

/-- The identity of a widget object (what a `std::shared_ptr<Widget>` points to): its index
in the store of live widgets. -/
abbrev WidgetId := Nat

/-- Modelled from the spec: the private state `Widget::Impl`, missing from the sources: "ordered
sequence of owned child Widgets", "a frame rectangle", "a background color (optional)". -/
structure Widget where
  children : List WidgetId
  frame : Rect
  backgroundColor : Option Color
deriving DecidableEq, Repr

/-- The live widget objects, addressed by identity. -/
abbrev Store := List Widget

/-- Every child handle held by some widget of the store, parent after parent. -/
def allChildren : Store → List WidgetId
  | [] => []
  | w :: rest => w.children ++ allChildren rest

/-- The widget `child` is in the child list of some widget of the store. -/
def owned (s : Store) (child : WidgetId) : Bool :=
  s.any (fun w => w.children.contains child)

/-- Some chain of at most `fuel` child links leads from widget `a` down to widget `b`; the
empty chain counts, so every widget reaches itself. -/
def reaches (s : Store) : Nat → WidgetId → WidgetId → Bool
  | 0, a, b => a == b
  | fuel + 1, a, b =>
    a == b ||
      (match s[a]? with
        | none => false
        | some w => w.children.any (fun c => reaches s fuel c b))

/-- Making `child` a child of `self` would close a cycle: `self` is `child` itself or lies
below it.  A chain without repetition has fewer links than the store has widgets. -/
def closesCycle (s : Store) (self child : WidgetId) : Bool :=
  reaches s s.length child self

/-- Modelled from the spec: the body of `Widget::AddChild`, missing from the sources (the
header only declares it): "appends to the ordered child list", with the precondition "child is
not already owned elsewhere" guarded ("must be rejected/guarded, not silently accepted"), as
is "a cycle in the tree" ("must be guarded against").  `self` is the widget the method is
called on; `none` is the rejected call. -/
def AddChild (s : Store) (self child : WidgetId) : Option Store :=
  match s[self]? with
  | none => none
  | some w =>
    if owned s child || closesCycle s self child then none
    else some (s.set self { w with children := w.children ++ [child] })

/-- Modelled from the spec: the body of `Widget::GetChildren`, missing from the sources:
"returns the current ordered list". -/
def GetChildren (s : Store) (self : WidgetId) : Option (List WidgetId) :=
  (s[self]?).map (fun w => w.children)

/-- Modelled from the spec: the body of `Widget::GetFrame`, missing from the sources. -/
def GetFrame (s : Store) (self : WidgetId) : Option Rect :=
  (s[self]?).map (fun w => w.frame)

/-- Modelled from the spec: the body of `Widget::GetBackgroundColor`, missing from the
sources; `none` inside is the "unset" background. -/
def GetBackgroundColor (s : Store) (self : WidgetId) : Option (Option Color) :=
  (s[self]?).map (fun w => w.backgroundColor)

/-- A sequence of `AddChild` calls `(parent, child)`, none of which is rejected. -/
def AddChildren (s : Store) : List (WidgetId × WidgetId) → Option Store
  | [] => some s
  | (self, child) :: calls => (AddChild s self child).bind (fun t => AddChildren t calls)

/-- No widget instance appears twice in one child list or in the child lists of two
parents. -/
def UniqueOwnership (s : Store) : Prop := (allChildren s).Nodup

instance (s : Store) : Decidable (UniqueOwnership s) := by
  unfold UniqueOwnership; infer_instance

/-- No widget of the store has a child yet. -/
def Childless (s : Store) : Prop := ∀ w ∈ s, w.children = []

instance (s : Store) : Decidable (Childless s) := by
  unfold Childless; infer_instance

end gui

end open3d

/-! ## Sample inputs -/

namespace three

/-- A sample choice of the point-size constants: sizes from 1 to 25 in steps of 1, default 5. -/
def sampleConstants : PointSizeConstants where
  POINT_SIZE_MAX := 25
  POINT_SIZE_MIN := 1
  POINT_SIZE_STEP := 1
  POINT_SIZE_DEFAULT := 5

/-- A sample `RenderOption` that differs from the constructed defaults in every member. -/
def sampleOption : RenderOption where
  background_color_ := ⟨1 / 2, 1 / 4, 0⟩
  interpolation_option_ := TextureInterpolationOption.LINEAR
  light_on_ := false
  light_position_relative_ := ⟨⟨1, 0, 2⟩, ⟨0, 1, 2⟩, ⟨1, 0, -2⟩, ⟨0, 1, -2⟩⟩
  light_color_ := ⟨⟨1, 0, 0⟩, ⟨0, 1, 0⟩, ⟨0, 0, 1⟩, ⟨1 / 2, 1 / 2, 1 / 2⟩⟩
  light_ambient_color_ := ⟨1 / 10, 1 / 10, 1 / 10⟩
  light_diffuse_power_ := ⟨1 / 2, 1 / 3, 1 / 4, 1 / 5⟩
  light_specular_power_ := ⟨1 / 6, 1 / 7, 1 / 8, 1 / 9⟩
  light_specular_shininess_ := ⟨10, 20, 30, 40⟩
  point_size_ := 7
  point_color_option_ := PointColorOption.NORMAL
  point_show_normal_ := true
  mesh_shade_option_ := MeshShadeOption.SMOOTH
  mesh_color_option_ := MeshColorOption.Z
  mesh_show_back_face_ := true
  mesh_show_wireframe_ := true
  default_mesh_color_ := ⟨3 / 10, 4 / 10, 5 / 10⟩
  image_stretch_option_ := ImageStretchOption.STRETCH_WITH_WINDOW
  image_max_depth_ := 65535
  show_coordinate_frame_ := true

namespace RenderOption

namespace IEEE

/-- The sample point-size constants as binary64 values: sizes from 1 to 25 in steps of 1,
default 5. -/
def sampleConstants : PointSizeConstants where
  POINT_SIZE_MAX := .fin 25
  POINT_SIZE_MIN := .fin 1
  POINT_SIZE_STEP := .fin 1
  POINT_SIZE_DEFAULT := .fin 5

/-- The `double` nearest to 0.1, the value of the C++ literal `0.1`. -/
def sampleTenth : ℚ := 3602879701896397 / 36028797018963968

/-- The `double` nearest to 3.2, the value of the C++ literal `3.2`. -/
def sampleThreePointTwo : ℚ := 3602879701896397 / 1125899906842624

end IEEE

end RenderOption

end three

namespace open3d

namespace gui

/-- A sample widget without children, at the given frame. -/
def sampleWidget (frame : Rect) : Widget where
  children := []
  frame := frame
  backgroundColor := none

/-- A sample store of four childless widgets. -/
def sampleStore : Store :=
  [sampleWidget ⟨0, 0, 640, 480⟩, sampleWidget ⟨0, 0, 100, 20⟩,
    sampleWidget ⟨0, 20, 100, 20⟩, sampleWidget ⟨0, 40, 100, 20⟩]

/-- The sample store after widget 0 has been given widget 1 as its first child. -/
def sampleParentStore : Store :=
  [{ sampleWidget ⟨0, 0, 640, 480⟩ with children := [1] }, sampleWidget ⟨0, 0, 100, 20⟩,
    sampleWidget ⟨0, 20, 100, 20⟩, sampleWidget ⟨0, 40, 100, 20⟩]

end gui

end open3d

/-! ## `RenderOption`: toggles and point size -/

namespace three

namespace RenderOption

theorem stdMin_eq_min (a b : ℚ) : stdMin a b = min a b := by
  unfold stdMin
  split_ifs with h
  · exact (min_eq_right h.le).symm
  · exact (min_eq_left (not_lt.mp h)).symm

theorem stdMax_eq_max (a b : ℚ) : stdMax a b = max a b := by
  unfold stdMax
  split_ifs with h
  · exact (max_eq_right h.le).symm
  · exact (max_eq_left (not_lt.mp h)).symm

theorem ChangePointSize_point_size (K : PointSizeConstants) (r : RenderOption) (change : ℚ) :
    (ChangePointSize K r change).point_size_ =
      max (min (r.point_size_ + change * K.POINT_SIZE_STEP) K.POINT_SIZE_MAX)
        K.POINT_SIZE_MIN := by
  simp [ChangePointSize, stdMin_eq_min, stdMax_eq_max]

end RenderOption

end three

namespace three

open ImageStretchOption ( STRETCH_KEEP_RATIO)

namespace RenderOption

/-- C1: `ToggleImageStretchOption` maps ORIGINAL_SIZE to STRETCH_KEEP_RATIO, STRETCH_KEEP_RATIO
to STRETCH_WITH_WINDOW and STRETCH_WITH_WINDOW to ORIGINAL_SIZE; from every state three
consecutive calls restore the state, while one call and two calls both leave
`image_stretch_option_` different from its starting value. -/
theorem ToggleImageStretchOption_cycles (r : RenderOption) :
    (ToggleImageStretchOption r).image_stretch_option_ =
        (match r.image_stretch_option_ with
          | .ORIGINAL_SIZE => STRETCH_KEEP_RATIO
          | STRETCH_KEEP_RATIO => ImageStretchOption.STRETCH_WITH_WINDOW
          | .STRETCH_WITH_WINDOW => ImageStretchOption.ORIGINAL_SIZE) ∧
      ToggleImageStretchOption (ToggleImageStretchOption (ToggleImageStretchOption r)) = r ∧
      (ToggleImageStretchOption r).image_stretch_option_ ≠ r.image_stretch_option_ ∧
      (ToggleImageStretchOption (ToggleImageStretchOption r)).image_stretch_option_ ≠
        r.image_stretch_option_ := by
  obtain ⟨_, _, _, _, _, _, _, _, _, _, _, _, _, _, _, _, _, iso, _, _⟩ := r
  cases iso <;> simp [ToggleImageStretchOption]

/-- C4: `ToggleInterpolationOption` maps NEAREST to LINEAR and LINEAR to NEAREST, and
`ToggleShadingOption` maps FLAT to SMOOTH and SMOOTH to FLAT; from every state, either toggle
applied twice restores the state and applied once changes its field. -/
theorem two_valued_toggles_cycle (r : RenderOption) :
    (ToggleInterpolationOption r).interpolation_option_ =
        (match r.interpolation_option_ with
          | .NEAREST => TextureInterpolationOption.LINEAR
          | .LINEAR => TextureInterpolationOption.NEAREST) ∧
      (ToggleShadingOption r).mesh_shade_option_ =
        (match r.mesh_shade_option_ with
          | .FLAT => MeshShadeOption.SMOOTH
          | .SMOOTH => MeshShadeOption.FLAT) ∧
      ToggleInterpolationOption (ToggleInterpolationOption r) = r ∧
      ToggleShadingOption (ToggleShadingOption r) = r ∧
      (ToggleInterpolationOption r).interpolation_option_ ≠ r.interpolation_option_ ∧
      (ToggleShadingOption r).mesh_shade_option_ ≠ r.mesh_shade_option_ := by
  obtain ⟨_, io, _, _, _, _, _, _, _, _, _, _, mso, _, _, _, _, _, _, _⟩ := r
  cases io <;> cases mso <;> simp [ToggleInterpolationOption, ToggleShadingOption]

/-- C2: with `POINT_SIZE_MIN ≤ POINT_SIZE_MAX`, `ChangePointSize` yields exactly
`POINT_SIZE_MAX` when `point_size_ + change * POINT_SIZE_STEP ≥ POINT_SIZE_MAX`, and exactly
`POINT_SIZE_MIN` when `point_size_ + change * POINT_SIZE_STEP ≤ POINT_SIZE_MIN`. -/
theorem ChangePointSize_clamps (K : PointSizeConstants)
    (hK : K.POINT_SIZE_MIN ≤ K.POINT_SIZE_MAX) (r : RenderOption) (change : ℚ) :
    (K.POINT_SIZE_MAX ≤ r.point_size_ + change * K.POINT_SIZE_STEP →
        (ChangePointSize K r change).point_size_ = K.POINT_SIZE_MAX) ∧
      (r.point_size_ + change * K.POINT_SIZE_STEP ≤ K.POINT_SIZE_MIN →
        (ChangePointSize K r change).point_size_ = K.POINT_SIZE_MIN) := by
  rw [ChangePointSize_point_size]
  constructor
  · intro h
    rw [min_eq_right h, max_eq_left hK]
  · intro h
    rw [min_eq_left (h.trans hK), max_eq_right h]

end RenderOption

end three

namespace three

namespace RenderOption

/-- Witness of C2 at the sample constants: from the default size 5, a change of 100 caps at
25 and a change of -100 floors at 1. -/
theorem ChangePointSize_clamps_witness :
    (ChangePointSize sampleConstants (new sampleConstants) 100).point_size_ = 25 ∧
      (ChangePointSize sampleConstants (new sampleConstants) (-100)).point_size_ = 1 :=
  ⟨(ChangePointSize_clamps sampleConstants (by norm_num [sampleConstants])
      (new sampleConstants) 100).1 (by norm_num [sampleConstants, new]),
    (ChangePointSize_clamps sampleConstants (by norm_num [sampleConstants])
      (new sampleConstants) (-100)).2 (by norm_num [sampleConstants, new])⟩

end RenderOption

end three

namespace three

namespace RenderOption

/-- C9: every mutating operation of `RenderOption` changes at most its own member: the state
after the call is the state before it with that one member replaced. -/
theorem mutators_change_only_own_field (K : PointSizeConstants) (r : RenderOption)
    (change : ℚ) :
    ToggleLightOn r = { r with light_on_ := (ToggleLightOn r).light_on_ } ∧
      ToggleInterpolationOption r =
        { r with interpolation_option_ := (ToggleInterpolationOption r).interpolation_option_ } ∧
      ChangePointSize K r change =
        { r with point_size_ := (ChangePointSize K r change).point_size_ } ∧
      TogglePointShowNormal r =
        { r with point_show_normal_ := (TogglePointShowNormal r).point_show_normal_ } ∧
      ToggleShadingOption r =
        { r with mesh_shade_option_ := (ToggleShadingOption r).mesh_shade_option_ } ∧
      ToggleMeshShowBackFace r =
        { r with mesh_show_back_face_ := (ToggleMeshShowBackFace r).mesh_show_back_face_ } ∧
      ToggleMeshShowWireframe r =
        { r with mesh_show_wireframe_ := (ToggleMeshShowWireframe r).mesh_show_wireframe_ } ∧
      ToggleImageStretchOption r =
        { r with image_stretch_option_ := (ToggleImageStretchOption r).image_stretch_option_ } := by
  refine ⟨rfl, ?_, rfl, rfl, ?_, rfl, rfl, ?_⟩
  · unfold ToggleInterpolationOption
    split_ifs <;> rfl
  · unfold ToggleShadingOption
    split_ifs <;> rfl
  · unfold ToggleImageStretchOption
    split_ifs <;> rfl

/-- C10: each of `ToggleLightOn`, `TogglePointShowNormal`, `ToggleMeshShowBackFace` and
`ToggleMeshShowWireframe` sets its flag to the negation of the previous value; applying the
same one twice restores the whole state; and any two toggle operations of `RenderOption`
commute. -/
theorem boolean_toggles_flip_and_commute (r : RenderOption) :
    ((ToggleLightOn r).light_on_ = !r.light_on_ ∧
        (TogglePointShowNormal r).point_show_normal_ = !r.point_show_normal_ ∧
        (ToggleMeshShowBackFace r).mesh_show_back_face_ = !r.mesh_show_back_face_ ∧
        (ToggleMeshShowWireframe r).mesh_show_wireframe_ = !r.mesh_show_wireframe_) ∧
      (ToggleLightOn (ToggleLightOn r) = r ∧
        TogglePointShowNormal (TogglePointShowNormal r) = r ∧
        ToggleMeshShowBackFace (ToggleMeshShowBackFace r) = r ∧
        ToggleMeshShowWireframe (ToggleMeshShowWireframe r) = r) ∧
      ∀ s t : Toggle, s.call (t.call r) = t.call (s.call r) := by
  refine ⟨⟨rfl, rfl, rfl, rfl⟩, ⟨?_, ?_, ?_, ?_⟩, ?_⟩
  · simp [ToggleLightOn]
  · simp [TogglePointShowNormal]
  · simp [ToggleMeshShowBackFace]
  · simp [ToggleMeshShowWireframe]
  · intro s t
    cases s <;> cases t <;>
      simp only [Toggle.call, ToggleLightOn, ToggleInterpolationOption, TogglePointShowNormal,
        ToggleShadingOption, ToggleMeshShowBackFace, ToggleMeshShowWireframe,
        ToggleImageStretchOption] <;>
      split_ifs <;> rfl

end RenderOption

end three

/-! ## `RenderOption`: the point size in binary64 arithmetic -/

namespace three

namespace Double

theorem neg_neg_eq (d : Double) : neg (neg d) = d := by
  cases d <;> simp [neg]

theorem roundPos_ne_nan (n d : Nat) : roundPos n d ≠ nan := by
  unfold roundPos
  simp only
  split_ifs <;> simp

theorem neg_ne_nan (d : Double) (h : d ≠ nan) : neg d ≠ nan := by
  cases d <;> simp [neg] at h ⊢

theorem roundDouble_ne_nan (q : ℚ) : roundDouble q ≠ nan := by
  unfold roundDouble
  split_ifs
  · simp
  · exact roundPos_ne_nan _ _
  · exact neg_ne_nan _ (roundPos_ne_nan _ _)

theorem roundDouble_zero : roundDouble 0 = fin 0 := by
  simp [roundDouble]

theorem roundDouble_neg (q : ℚ) : roundDouble (-q) = neg (roundDouble q) := by
  unfold roundDouble
  rcases lt_trichotomy q.num 0 with h | h | h
  · have h1 : ¬ q.num = 0 := ne_of_lt h
    have h2 : ¬ 0 < q.num := not_lt.mpr h.le
    have h3 : 0 < -q.num := by omega
    have h4 : ¬ -q.num = 0 := by omega
    simp [h1, h2, h3, h4, neg_neg_eq]
  · simp [h, neg]
  · have h1 : ¬ q.num = 0 := (ne_of_lt h).symm
    have h3 : ¬ 0 < -q.num := by omega
    have h4 : ¬ -q.num = 0 := by omega
    simp [h1, h, h3, h4]

theorem lt_nan_left (d : Double) : lt nan d = false := by
  cases d <;> rfl

theorem lt_nan_right (d : Double) : lt d nan = false := by
  cases d <;> rfl

theorem add_fin_ne_nan (a : ℚ) (d : Double) (h : d ≠ nan) : add (fin a) d ≠ nan := by
  cases d with
  | nan => exact absurd rfl h
  | ninf => simp [add]
  | fin b => simpa [add] using roundDouble_ne_nan (a + b)
  | pinf => simp [add]

/-- The rounding agrees with the hardware on the literals `0.1` and `3.2`, on a tie
(`5 + 3.2`), at the overflow threshold and on the smallest subnormal. -/
theorem roundDouble_samples :
    roundDouble (1 / 10) = fin (3602879701896397 / 36028797018963968) ∧
      roundDouble (16 / 5) = fin (3602879701896397 / 1125899906842624) ∧
      roundDouble (5 + 3602879701896397 / 1125899906842624) =
        fin (4616189618054758 / 562949953421312) ∧
      roundDouble (2 ^ 1024 - 2 ^ 970) = pinf ∧
      roundDouble (2 ^ 1024 - 2 ^ 970 - 1) = fin (2 ^ 1024 - 2 ^ 971) ∧
      roundDouble (-(2 ^ 1024)) = ninf ∧
      roundDouble (1 / 2 ^ 1074) = fin (1 / 2 ^ 1074) ∧
      roundDouble (1 / 2 ^ 1075) = fin 0 := by
  decide!

end Double

namespace RenderOption

namespace IEEE

open Double

theorem clamp_bounds (x hi lo : Double) (hK : le lo hi = true) (hx : x ≠ nan) :
    le lo (stdMax (stdMin x hi) lo) = true ∧ le (stdMax (stdMin x hi) lo) hi = true := by
  cases x <;> cases hi <;> cases lo <;>
    simp only [stdMin, stdMax, lt, le, ne_eq, not_true_eq_false, Bool.false_eq_true,
      decide_eq_true_eq, if_true, if_false, and_self, reduceCtorEq, not_false_eq_true] at hK hx ⊢
  all_goals
    (try split_ifs) <;>
    (try simp only [lt, le, decide_eq_true_eq, Bool.false_eq_true, if_false, if_true, and_self,
      le_refl, true_and, and_true] at *) <;>
    first
      | done
      | linarith
      | exact ⟨by linarith, by linarith⟩

/-- A not-a-number argument reaches `point_size_`, whatever the constants and the prior
value: `std::min` and `std::max` return their first argument when a comparison is false. -/
theorem ChangePointSize_nan (K : PointSizeConstants) (p : Double) :
    ChangePointSize K p nan = nan := by
  have h : p.add (nan.mul K.POINT_SIZE_STEP) = nan := by
    cases p <;> cases K.POINT_SIZE_STEP <;> rfl
  simp [ChangePointSize, h, stdMin, stdMax, lt_nan_left, lt_nan_right]

/-- A not-a-number prior value stays, whatever the constants and the argument. -/
theorem ChangePointSize_of_nan (K : PointSizeConstants) (change : Double) :
    ChangePointSize K nan change = nan := by
  have h : nan.add (change.mul K.POINT_SIZE_STEP) = nan := by
    cases change.mul K.POINT_SIZE_STEP <;> rfl
  simp [ChangePointSize, h, stdMin, stdMax, lt_nan_left, lt_nan_right]

theorem ChangePointSize_exact (K : PointSizeConstants) (a b s lo hi : ℚ)
    (hS : K.POINT_SIZE_STEP = fin s) (hlo : K.POINT_SIZE_MIN = fin lo)
    (hhi : K.POINT_SIZE_MAX = fin hi)
    (hprod : roundDouble (b * s) = fin (b * s))
    (hsum : roundDouble (a + b * s) = fin (a + b * s))
    (h1 : lo ≤ a + b * s) (h2 : a + b * s ≤ hi) :
    ChangePointSize K (fin a) (fin b) = fin (a + b * s) := by
  simp only [ChangePointSize, hS, hlo, hhi, mul, hprod, add, hsum, stdMin, stdMax, lt,
    decide_eq_true_eq, not_lt.mpr h2, not_lt.mpr h1, if_false]

/-- Counterexample to C3 as stated: with `POINT_SIZE_MIN = 1 ≤ POINT_SIZE_MAX = 25`, the call
`ChangePointSize(NaN)` on a point size of 5 leaves `point_size_` not-a-number, which is
neither `≥ POINT_SIZE_MIN` nor `≤ POINT_SIZE_MAX`. -/
theorem point_size_unbounded_at_NaN :
    le sampleConstants.POINT_SIZE_MIN sampleConstants.POINT_SIZE_MAX = true ∧
      ChangePointSize sampleConstants (fin 5) nan = nan ∧
      ¬ (le sampleConstants.POINT_SIZE_MIN (ChangePointSize sampleConstants (fin 5) nan) = true ∧
        le (ChangePointSize sampleConstants (fin 5) nan) sampleConstants.POINT_SIZE_MAX
          = true) := by
  decide!

/-- C3 (amended): with `POINT_SIZE_MIN ≤ POINT_SIZE_MAX`, for every prior value of
`point_size_` (even one outside the range, even infinite) and every argument such that the
sum `point_size_ + change * POINT_SIZE_STEP` is a number, after `ChangePointSize` the point
size lies in `[POINT_SIZE_MIN, POINT_SIZE_MAX]`; the sum is a number whenever the prior value,
the argument and `POINT_SIZE_STEP` are finite; and every toggle leaves `point_size_` as it
is. -/
theorem point_size_bounded_unless_NaN (K : PointSizeConstants)
    (hK : le K.POINT_SIZE_MIN K.POINT_SIZE_MAX = true) (p change : Double)
    (hx : p.add (change.mul K.POINT_SIZE_STEP) ≠ nan) :
    (le K.POINT_SIZE_MIN (ChangePointSize K p change) = true ∧
        le (ChangePointSize K p change) K.POINT_SIZE_MAX = true) ∧
      (∀ a b s : ℚ, K.POINT_SIZE_STEP = fin s →
        le K.POINT_SIZE_MIN (ChangePointSize K (fin a) (fin b)) = true ∧
          le (ChangePointSize K (fin a) (fin b)) K.POINT_SIZE_MAX = true) ∧
      ∀ (t : Toggle) (r : RenderOption), (t.call r).point_size_ = r.point_size_ := by
  refine ⟨clamp_bounds _ _ _ hK hx, ?_, ?_⟩
  · intro a b s hS
    refine clamp_bounds _ _ _ hK ?_
    rw [hS]
    exact add_fin_ne_nan a _ (by simpa [mul] using roundDouble_ne_nan (b * s))
  · intro t r
    cases t <;>
      simp only [Toggle.call, ToggleLightOn, ToggleInterpolationOption, TogglePointShowNormal,
        ToggleShadingOption, ToggleMeshShowBackFace, ToggleMeshShowWireframe,
        ToggleImageStretchOption] <;>
      split_ifs <;> rfl

/-- Witness of C3 (amended) at the sample constants: an infinite point size, far out of
range, is brought to within `[1, 25]` by `ChangePointSize(3)`. -/
theorem point_size_bounded_unless_NaN_witness :
    le (fin 1) (ChangePointSize sampleConstants pinf (fin 3)) = true ∧
      le (ChangePointSize sampleConstants pinf (fin 3)) (fin 25) = true :=
  (point_size_bounded_unless_NaN sampleConstants (by decide!) pinf (fin 3) (by decide!)).1

/-- Counterexample to C8 as stated, at the sample constants (sizes 1 to 25, step 1).  From
the point size 5, `ChangePointSize(0.1)` does not clamp, yet the result is not `5 + 0.1 * 1`
(it is 5.0999999999999996...); and `ChangePointSize(3.2)` followed by
`ChangePointSize(-3.2)`, neither of which clamps, ends at 4.9999999999999991..., not at 5.
All inputs are `double` values. -/
theorem ChangePointSize_steps_inexact :
    (roundDouble sampleTenth = fin sampleTenth ∧
        (1 : ℚ) ≤ 5 + sampleTenth * 1 ∧ 5 + sampleTenth * 1 ≤ 25 ∧
        ChangePointSize sampleConstants (fin 5) (fin sampleTenth) ≠
          fin (5 + sampleTenth * 1) ∧
        ChangePointSize sampleConstants (fin 5) (fin sampleTenth) =
          fin (2871044762448691 / 562949953421312)) ∧
      (roundDouble sampleThreePointTwo = fin sampleThreePointTwo ∧
        (1 : ℚ) ≤ 5 + sampleThreePointTwo * 1 ∧ 5 + sampleThreePointTwo * 1 ≤ 25 ∧
        ChangePointSize sampleConstants
            (ChangePointSize sampleConstants (fin 5) (fin sampleThreePointTwo))
            (fin (-sampleThreePointTwo)) ≠ fin 5 ∧
        ChangePointSize sampleConstants
            (ChangePointSize sampleConstants (fin 5) (fin sampleThreePointTwo))
            (fin (-sampleThreePointTwo)) = fin (5629499534213119 / 1125899906842624)) := by
  decide!

/-- C8 (amended): with finite constants, when the product `c * POINT_SIZE_STEP` and the sum
`p + c * POINT_SIZE_STEP` are `double` values (no rounding occurs) and
`POINT_SIZE_MIN ≤ p + c * POINT_SIZE_STEP ≤ POINT_SIZE_MAX`, `ChangePointSize(c)` sets the
point size to exactly `p + c * POINT_SIZE_STEP`; `ChangePointSize(0)` leaves an in-range
point size unchanged; and for such a `c` and an in-range `p`, `ChangePointSize(c)` followed by
`ChangePointSize(-c)` restores `p`. -/
theorem ChangePointSize_steps_when_exact (K : PointSizeConstants) (p c s lo hi : ℚ)
    (hS : K.POINT_SIZE_STEP = fin s) (hlo : K.POINT_SIZE_MIN = fin lo)
    (hhi : K.POINT_SIZE_MAX = fin hi)
    (hprod : roundDouble (c * s) = fin (c * s))
    (hsum : roundDouble (p + c * s) = fin (p + c * s))
    (h1 : lo ≤ p + c * s) (h2 : p + c * s ≤ hi) :
    ChangePointSize K (fin p) (fin c) = fin (p + c * s) ∧
      (roundDouble p = fin p → lo ≤ p → p ≤ hi →
        ChangePointSize K (fin p) (fin 0) = fin p) ∧
      (roundDouble p = fin p → lo ≤ p → p ≤ hi →
        ChangePointSize K (ChangePointSize K (fin p) (fin c)) (fin (-c)) = fin p) := by
  have first := ChangePointSize_exact K p c s lo hi hS hlo hhi hprod hsum h1 h2
  refine ⟨first, ?_, ?_⟩
  · intro hp hl hh
    have h := ChangePointSize_exact K p 0 s lo hi hS hlo hhi
      (by simp [roundDouble_zero]) (by simpa using hp) (by simpa using hl) (by simpa using hh)
    simpa using h
  · intro hp hl hh
    rw [first]
    have hneg : roundDouble (-c * s) = fin (-c * s) := by
      rw [neg_mul, roundDouble_neg, hprod]
      rfl
    have h := ChangePointSize_exact K (p + c * s) (-c) s lo hi hS hlo hhi hneg
      (by simpa using hp) (by simpa using hl) (by simpa using hh)
    simpa using h

/-- Witness of C8 (amended) at the sample constants: from the point size 5,
`ChangePointSize(3)` gives 8 and `ChangePointSize(-3)` then gives 5 again. -/
theorem ChangePointSize_steps_when_exact_witness :
    ChangePointSize sampleConstants (fin 5) (fin 3) = fin (5 + 3 * 1) ∧
      ChangePointSize sampleConstants (ChangePointSize sampleConstants (fin 5) (fin 3))
        (fin (-3)) = fin 5 :=
  have h := ChangePointSize_steps_when_exact sampleConstants 5 3 1 1 25 rfl rfl rfl
    (by decide!) (by decide!) (by norm_num) (by norm_num)
  ⟨h.1, h.2.2 (by decide!) (by norm_num) (by norm_num)⟩

end IEEE

end RenderOption

end three

/-! ## `RenderOption`: JSON round trip -/

namespace three

theorem TextureInterpolationOption_ofInt_toInt (e : TextureInterpolationOption) :
    TextureInterpolationOption.ofInt e.toInt = some e := by
  cases e <;> rfl

theorem PointColorOption_ofInt_toInt (e : PointColorOption) :
    PointColorOption.ofInt e.toInt = some e := by
  cases e <;> rfl

theorem MeshShadeOption_ofInt_toInt (e : MeshShadeOption) :
    MeshShadeOption.ofInt e.toInt = some e := by
  cases e <;> rfl

theorem MeshColorOption_ofInt_toInt (e : MeshColorOption) :
    MeshColorOption.ofInt e.toInt = some e := by
  cases e <;> rfl

theorem ImageStretchOption_ofInt_toInt (e : ImageStretchOption) :
    ImageStretchOption.ofInt e.toInt = some e := by
  cases e <;> rfl

theorem TextureInterpolationOption_isInt32_toInt (e : TextureInterpolationOption) :
    Json.isInt32 e.toInt = true := by
  cases e <;> rfl

theorem PointColorOption_isInt32_toInt (e : PointColorOption) :
    Json.isInt32 e.toInt = true := by
  cases e <;> rfl

theorem MeshShadeOption_isInt32_toInt (e : MeshShadeOption) :
    Json.isInt32 e.toInt = true := by
  cases e <;> rfl

theorem MeshColorOption_isInt32_toInt (e : MeshColorOption) :
    Json.isInt32 e.toInt = true := by
  cases e <;> rfl

theorem ImageStretchOption_isInt32_toInt (e : ImageStretchOption) :
    Json.isInt32 e.toInt = true := by
  cases e <;> rfl

theorem Vector3d_fromJson_toJson (v : Vector3d) : Vector3d.fromJson v.toJson = some v := by
  cases v
  rfl

theorem Array4_fromJson_toJson {α : Type} (enc : α → Json.Value)
    (dec : Json.Value → Option α) (h : ∀ a, dec (enc a) = some a) (a : Array4 α) :
    Array4.fromJson dec (a.toJson enc) = some a := by
  cases a
  simp [Array4.fromJson, Array4.toJson, h]

namespace RenderOption

/-- The round trip into any target instance `self`: every member of `self` is overwritten. -/
theorem ConvertFromJsonValue_ConvertToJsonValue (self r : RenderOption) (hr : InRange r) :
    (ConvertToJsonValue r).bind (ConvertFromJsonValue self) = some r := by
  unfold InRange at hr
  simp [ConvertToJsonValue, ConvertFromJsonValue, assignField, readField, List.lookup,
    Json.Value.asInt, Json.Value.asBool, Json.Value.asDouble, hr,
    TextureInterpolationOption_ofInt_toInt, PointColorOption_ofInt_toInt,
    MeshShadeOption_ofInt_toInt, MeshColorOption_ofInt_toInt, ImageStretchOption_ofInt_toInt,
    TextureInterpolationOption_isInt32_toInt, PointColorOption_isInt32_toInt,
    MeshShadeOption_isInt32_toInt, MeshColorOption_isInt32_toInt,
    ImageStretchOption_isInt32_toInt, Vector3d_fromJson_toJson, Array4_fromJson_toJson]

end RenderOption

end three

namespace three

namespace RenderOption

/-- The tolerance policy of the modelled reader: an object without any key leaves
the target as constructed. -/
theorem ConvertFromJsonValue_empty_object (self : RenderOption) :
    ConvertFromJsonValue self (.obj []) = some self := by
  simp [ConvertFromJsonValue, assignField, readField, List.lookup]

/-- The failure policy of the modelled reader: an integer that is no enumerator of
`TextureInterpolationOption` fails the conversion. -/
theorem ConvertFromJsonValue_enum_out_of_range (self : RenderOption) :
    ConvertFromJsonValue self (.obj [("interpolation_option", .int 7)]) = none := by
  simp [ConvertFromJsonValue, assignField, readField, List.lookup, Json.Value.asInt,
    Json.isInt32, TextureInterpolationOption.ofInt]

/-- C5: for every `RenderOption` `r` whose members hold in-range values, `ConvertToJsonValue`
succeeds, and `ConvertFromJsonValue` applied to its result on a freshly constructed
`RenderOption` succeeds and yields an instance equal to `r` in every member. -/
theorem json_round_trip (K : PointSizeConstants) (r : RenderOption) (hr : InRange r) :
    ∃ value, ConvertToJsonValue r = some value ∧
      ConvertFromJsonValue (new K) value = some r := by
  have h := ConvertFromJsonValue_ConvertToJsonValue (new K) r hr
  exact ⟨_, rfl, h⟩

/-- Witness of C5: the sample option, which differs from the defaults in every member, is
reproduced from its JSON value by a freshly constructed instance. -/
theorem json_round_trip_witness :
    InRange sampleOption ∧
      ∃ value, ConvertToJsonValue sampleOption = some value ∧
        ConvertFromJsonValue (new sampleConstants) value = some sampleOption :=
  ⟨by decide, json_round_trip sampleConstants sampleOption (by decide)⟩

end RenderOption

end three

/-! ## `Widget`: composition and ownership -/

namespace open3d

namespace gui

theorem owned_iff_mem (s : Store) (c : WidgetId) : owned s c = true ↔ c ∈ allChildren s := by
  induction s with
  | nil => simp [owned, allChildren]
  | cons w rest ih =>
    simp only [owned, List.any_cons, Bool.or_eq_true, allChildren, List.mem_append] at ih ⊢
    rw [ih]
    simp

theorem mem_allChildren_set (s : Store) (i : Nat) (w : Widget) (c x : WidgetId)
    (hw : s[i]? = some w) :
    x ∈ allChildren (s.set i { w with children := w.children ++ [c] }) ↔
      x ∈ allChildren s ∨ x = c := by
  induction s generalizing i with
  | nil => simp at hw
  | cons v rest ih =>
    cases i with
    | zero =>
      simp only [List.getElem?_cons_zero, Option.some.injEq] at hw
      subst hw
      simp only [List.set_cons_zero, allChildren, List.mem_append, List.mem_singleton]
      tauto
    | succ j =>
      simp only [List.getElem?_cons_succ] at hw
      simp only [List.set_cons_succ, allChildren, List.mem_append, ih j hw]
      tauto

theorem nodup_allChildren_set (s : Store) (i : Nat) (w : Widget) (c : WidgetId)
    (hw : s[i]? = some w) (hc : c ∉ allChildren s) (hs : (allChildren s).Nodup) :
    (allChildren (s.set i { w with children := w.children ++ [c] })).Nodup := by
  induction s generalizing i with
  | nil => simp at hw
  | cons v rest ih =>
    simp only [allChildren, List.mem_append, not_or] at hc
    simp only [allChildren] at hs
    rw [List.nodup_append] at hs
    obtain ⟨hv, hrest, hdisj⟩ := hs
    cases i with
    | zero =>
      simp only [List.getElem?_cons_zero, Option.some.injEq] at hw
      subst hw
      simp only [List.set_cons_zero, allChildren]
      rw [List.nodup_append]
      refine ⟨?_, hrest, ?_⟩
      · rw [List.nodup_append]
        refine ⟨hv, List.nodup_singleton c, ?_⟩
        intro a ha hac
        rw [List.mem_singleton] at hac
        exact hc.1 (hac ▸ ha)
      · intro a ha har
        rw [List.mem_append, List.mem_singleton] at ha
        rcases ha with ha | ha
        · exact hdisj ha har
        · exact hc.2 (ha ▸ har)
    | succ j =>
      simp only [List.getElem?_cons_succ] at hw
      simp only [List.set_cons_succ, allChildren]
      rw [List.nodup_append]
      refine ⟨hv, ih j hw hc.2 hrest, ?_⟩
      intro a ha har
      rw [mem_allChildren_set rest j w c a hw] at har
      rcases har with har | har
      · exact hdisj ha har
      · exact hc.1 (har ▸ ha)

theorem AddChild_preserves_UniqueOwnership (s t : Store) (self child : WidgetId)
    (hs : UniqueOwnership s) (h : AddChild s self child = some t) : UniqueOwnership t := by
  unfold AddChild at h
  cases hw : s[self]? with
  | none => simp [hw] at h
  | some w =>
    simp only [hw] at h
    by_cases hg : (owned s child || closesCycle s self child) = true
    · simp [hg] at h
    · simp only [hg, Bool.false_eq_true, if_false, Option.some.injEq] at h
      subst h
      have ho : ¬ owned s child = true := fun ho => hg (by simp [ho])
      exact nodup_allChildren_set s self w child hw
        (fun hm => ho ((owned_iff_mem s child).mpr hm)) hs

theorem allChildren_of_Childless (s : Store) (h : Childless s) : allChildren s = [] := by
  induction s with
  | nil => rfl
  | cons w rest ih =>
    have hw : w.children = [] := h w (List.mem_cons_self w rest)
    have hrest : Childless rest := fun v hv => h v (List.mem_cons_of_mem w hv)
    simp [allChildren, hw, ih hrest]

theorem AddChildren_preserves_UniqueOwnership (calls : List (WidgetId × WidgetId))
    (s t : Store) (hs : UniqueOwnership s) (h : AddChildren s calls = some t) :
    UniqueOwnership t := by
  induction calls generalizing s with
  | nil =>
    simp only [AddChildren, Option.some.injEq] at h
    exact h ▸ hs
  | cons call calls ih =>
    obtain ⟨self, child⟩ := call
    simp only [AddChildren] at h
    cases hu : AddChild s self child with
    | none => simp [hu] at h
    | some u =>
      simp only [hu, Option.some_bind] at h
      exact ih u (AddChild_preserves_UniqueOwnership s u self child hs hu) h

end gui

end open3d

namespace open3d

namespace gui

/-- The cycle guard sees through a chain: once widget 0 owns widget 1 and widget 1 owns
widget 2, widget 0 cannot become a child of widget 2, while widget 3 still can. -/
theorem AddChild_rejects_chain_cycle :
    (AddChildren sampleStore [(0, 1), (1, 2)]).bind (fun t => AddChild t 2 0) = none ∧
      ((AddChildren sampleStore [(0, 1), (1, 2)]).bind (fun t => AddChild t 2 3)).isSome
        = true := by
  decide

/-- Counterexample to C6 as stated, on the sample store: widget 0 has the child list `[]` and
is owned by no widget, yet `AddChild` of widget 0 to itself is rejected, as it would close a
cycle; so is the call that would make widget 0 a child of its own child. -/
theorem AddChild_rejects_cycle :
    GetChildren sampleStore 0 = some [] ∧ owned sampleStore 0 = false ∧
      AddChild sampleStore 0 0 = none ∧
      owned sampleParentStore 0 = false ∧ AddChild sampleParentStore 1 0 = none := by
  decide

/-- C6 (amended): for a widget `self` with child list `L` and a child that is owned by no
widget and whose addition closes no cycle (it is neither `self` nor above `self`), `AddChild`
succeeds, after it `GetChildren` returns exactly `L` followed by the child, the frame and the
background colour of `self` are what they were, and every other widget of the store is
untouched. -/
theorem AddChild_appends (s : Store) (self child : WidgetId) (L : List WidgetId)
    (hL : GetChildren s self = some L) (hc : owned s child = false)
    (hcycle : closesCycle s self child = false) :
    ∃ t, AddChild s self child = some t ∧
      GetChildren t self = some (L ++ [child]) ∧
      GetFrame t self = GetFrame s self ∧
      GetBackgroundColor t self = GetBackgroundColor s self ∧
      t.length = s.length ∧
      ∀ other : WidgetId, other ≠ self → t[other]? = s[other]? := by
  unfold GetChildren at hL
  cases hw : s[self]? with
  | none => simp [hw] at hL
  | some w =>
    simp only [hw, Option.map_some', Option.some.injEq] at hL
    subst hL
    have hlt : self < s.length := by
      by_contra hge
      rw [List.getElem?_eq_none (not_lt.mp hge)] at hw
      exact Option.noConfusion hw
    refine ⟨s.set self { w with children := w.children ++ [child] }, ?_, ?_, ?_, ?_, ?_, ?_⟩
    · simp [AddChild, hw, hc, hcycle]
    · simp [GetChildren, List.getElem?_set, hlt]
    · simp [GetFrame, List.getElem?_set, hlt, hw]
    · simp [GetBackgroundColor, List.getElem?_set, hlt, hw]
    · simp
    · intro other hne
      simp [List.getElem?_set, Ne.symm hne]

/-- Witness of C6 (amended): in the sample store where widget 0 already has the child list
`[1]`, widget 2 is not owned and closes no cycle, and after `AddChild` the child list of
widget 0 is `[1, 2]`: the new child comes last. -/
theorem AddChild_appends_witness :
    ∃ t, AddChild sampleParentStore 0 2 = some t ∧
      GetChildren t 0 = some [1, 2] ∧
      GetFrame t 0 = GetFrame sampleParentStore 0 ∧
      GetBackgroundColor t 0 = GetBackgroundColor sampleParentStore 0 ∧
      t.length = sampleParentStore.length ∧
      ∀ other : WidgetId, other ≠ 0 → t[other]? = sampleParentStore[other]? :=
  AddChild_appends sampleParentStore 0 2 [1] (by decide) (by decide) (by decide)

/-- C7: `AddChild` of a child that is already in the child list of some widget of the store
(the same parent or another one) is rejected; a call that is accepted keeps the child lists
free of duplicates; hence after any sequence of accepted calls on widgets that started without
children, no widget appears twice in one child list or in the child lists of two parents. -/
theorem AddChild_guards_ownership :
    (∀ (s : Store) (self child : WidgetId),
        owned s child = true → AddChild s self child = none) ∧
      (∀ (s t : Store) (self child : WidgetId),
        UniqueOwnership s → AddChild s self child = some t → UniqueOwnership t) ∧
      (∀ (s t : Store) (calls : List (WidgetId × WidgetId)),
        Childless s → AddChildren s calls = some t → UniqueOwnership t) := by
  refine ⟨?_, ?_, ?_⟩
  · intro s self child hc
    unfold AddChild
    cases s[self]? with
    | none => rfl
    | some w => simp [hc]
  · intro s t self child hs h
    exact AddChild_preserves_UniqueOwnership s t self child hs h
  · intro s t calls hs h
    refine AddChildren_preserves_UniqueOwnership calls s t ?_ h
    unfold UniqueOwnership
    rw [allChildren_of_Childless s hs]
    exact List.nodup_nil

/-- Witness of C7 on the sample store: once widget 0 owns widgets 1 and 2, adding widget 1
again to widget 0, or to widget 3, is rejected, and ownership is unique. -/
theorem AddChild_guards_ownership_witness :
    ∃ t, AddChildren sampleStore [(0, 1), (0, 2)] = some t ∧
      AddChild t 0 1 = none ∧ AddChild t 3 1 = none ∧ UniqueOwnership t :=
  ⟨[{ sampleWidget ⟨0, 0, 640, 480⟩ with children := [1, 2] }, sampleWidget ⟨0, 0, 100, 20⟩,
      sampleWidget ⟨0, 20, 100, 20⟩, sampleWidget ⟨0, 40, 100, 20⟩],
    by decide,
    AddChild_guards_ownership.1 _ 0 1 (by decide),
    AddChild_guards_ownership.1 _ 3 1 (by decide),
    AddChild_guards_ownership.2.2 sampleStore _ [(0, 1), (0, 2)] (by decide) (by decide)⟩

end gui

end open3d
